import Mathlib

/-!
# Verification of the live voice-streaming pipeline

Shallow embedding of the voice pipeline of this repository:

* `AudioProcessor` (the audio worklet in `public/worklets/audio-processor.js`):
  per-sample PCM encoding and fixed-size frame emission.
* `useLiveVoiceChat` (in `frontend/src/hooks/useLiveVoiceChat.ts`):
  the conversation controller, streaming transport and playback queue,
  modelled as a single event-step function over an explicit state record,
  mirroring the single-threaded event-loop scheduling of the source.

Floating-point input samples are modelled as rationals; the JavaScript
`Int16Array` store is modelled exactly (truncation toward zero, then
wrap-around modulo 2^16 into the signed 16-bit range).
-/

set_option autoImplicit false

namespace VoicePipeline

/-! ### Capture & Encoder: the `AudioProcessor` worklet -/

/-- JavaScript number-to-integer conversion (`ToIntegerOrInfinity`) on a
finite value: truncation toward zero. -/
def jsTrunc (q : ℚ) : ℤ := if q < 0 then ⌈q⌉ else ⌊q⌋

/-- Storing a number into a JavaScript `Int16Array` (`ToInt16`): truncate
toward zero, then wrap modulo 2^16 into `[-32768, 32767]`. -/
def toInt16 (q : ℚ) : ℤ := (jsTrunc q + 32768) % 65536 - 32768

/-- One sample encoding in `AudioProcessor.process`:
`const s = Math.max(-1, Math.min(1, inputChannel[i]));`
`this.buffer[this.bufferIndex++] = s < 0 ? s * 0x8000 : s * 0x7FFF;`
(the store into the `Int16Array` performs the `ToInt16` conversion). -/
def encodeSample (x : ℚ) : ℤ :=
  let s := max (-1) (min 1 x)
  toInt16 (if s < 0 then s * 32768 else s * 32767)

/-- Modelled from the spec: "every input sample (floating point, range
[-1, 1]) is clamped to that range, then linearly scaled to the 16-bit
signed integer range: negative samples scale by 32768, non-negative
samples scale by 32767".  The scaled value, as an exact rational. -/
def specScaledSample (x : ℚ) : ℚ :=
  let c := min 1 (max (-1) x)
  if c < 0 then c * 32768 else c * 32767

/-- State of the `AudioProcessor` worklet: the fixed-capacity `Int16Array`
buffer, the write cursor `bufferIndex`, and (as the observable output) the
list of frames posted to the port so far, each an independent copy of the
buffer at emission time. -/
structure ProcState where
  bufferSize : ℕ
  buffer : List ℤ
  bufferIndex : ℕ
  emitted : List (List ℤ)
deriving DecidableEq

/-- Constructor state: `bufferSize` from the options, a zero-initialised
`Int16Array` of that size, cursor at `0`, nothing posted yet. -/
def ProcState.init (n : ℕ) : ProcState :=
  ⟨n, List.replicate n 0, 0, []⟩

/-- One iteration of the sample loop in `AudioProcessor.process`: encode
and store the sample at the cursor, advance the cursor, and when it
reaches `bufferSize` post a copy of the filled buffer and reset to `0`. -/
def processSample (st : ProcState) (x : ℚ) : ProcState :=
  let buf := st.buffer.set st.bufferIndex (encodeSample x)
  let idx := st.bufferIndex + 1
  if st.bufferSize ≤ idx then
    { st with buffer := buf, bufferIndex := 0, emitted := st.emitted ++ [buf] }
  else
    { st with buffer := buf, bufferIndex := idx }

/-- The sample loop of `AudioProcessor.process` over one block of input
samples (the mono input channel). -/
def process (st : ProcState) (input : List ℚ) : ProcState :=
  input.foldl processSample st

/-! ### The `useLiveVoiceChat` hook

The hook is modelled as a step function over an explicit state record.
Each event is one callback/handler invocation of the source, run to
completion — faithful to the browser's single-threaded event loop, where
each handler body (none of which suspends between its state mutations)
runs atomically.  The `started`, `finishedCount`, `enqueuedG` and
`wasOpened` fields are history (ghost) variables recording observable
behaviour; they influence nothing. -/

/-- `ConnectionStatus` of the hook. -/
inductive ConnStatus where
  | disconnected | connecting | connected | error
deriving DecidableEq

/-- `ConversationStatus` of the hook. -/
inductive ConvStatus where
  | idle | recording | processing | speaking
deriving DecidableEq

/-- `WebSocket.readyState` of the underlying socket. -/
inductive ReadyState where
  | connecting | open | closing | closed
deriving DecidableEq

/-- A message sent by the client on the socket: either the configuration
handshake `{ config: { isRagEnabled, sessionId } }` sent by `ws.onopen`
(its web-search component is `none` because the hook never includes such a
field), or an audio message `{ audio_chunk: <base64> }` sent by the
worklet-port handler.  The audio payload is modelled as the list of PCM
bytes that get base64-encoded. -/
inductive WireMsg where
  | config (isRagEnabled : Bool) (isWebSearchEnabled : Option Bool) (sessionId : String)
  | audioChunk (payload : List ℤ)
deriving DecidableEq

/-- Shape of an inbound socket message, as discriminated by `ws.onmessage`:
a JSON object with an `audio_chunk` field (payload modelled as its decoded
bytes), a well-formed JSON object without that field, or text that is not
valid JSON (on which `JSON.parse` throws before any state is touched). -/
inductive InMsg where
  | audioChunk (bytes : List ℤ)
  | noAudioField
  | malformed
deriving DecidableEq

/-- `Bool` test: is a wire message the configuration handshake? -/
def isConfigMsg : WireMsg → Bool
  | .config _ _ _ => true
  | .audioChunk _ => false

/-- `Bool` test: is a wire message an outbound audio message? -/
def isAudioMsg : WireMsg → Bool
  | .config _ _ _ => false
  | .audioChunk _ => true

/-- `Bool` test: does a wire message carry a web-search feature flag? -/
def hasWebSearchFlag : WireMsg → Bool
  | .config _ w _ => w.isSome
  | .audioChunk _ => false

/-- State of one `useLiveVoiceChat` hook instance.

* `connectionStatus`, `conversationStatus` — the two React state axes;
* `socketExists` — whether `socketRef.current` is non-null (it is set at
  the end of `connect` and never cleared);
* `readyState` — the socket's ready state (meaningful when `socketExists`);
* `sent` — every message sent on the socket so far, in send order (ghost);
* `queue` — `audioQueueRef.current`, the pending chunk list;
* `isPlaying` — `isPlayingRef.current`;
* `ctxOpen` — whether `playbackAudioContextRef.current` is a live context;
* `recordingActive` — whether the media stream and worklet node are live;
* `started` — chunks whose render was begun, in order (ghost);
* `finishedCount` — number of render attempts that have terminated (ghost);
* `enqueuedG` — every chunk pushed onto `queue`, in order (ghost);
* `wasOpened` — whether the socket's `open` event ever fired (ghost). -/
structure HookState where
  connectionStatus : ConnStatus
  conversationStatus : ConvStatus
  socketExists : Bool
  readyState : ReadyState
  sent : List WireMsg
  queue : List (List ℤ)
  isPlaying : Bool
  ctxOpen : Bool
  recordingActive : Bool
  started : List (List ℤ)
  finishedCount : ℕ
  enqueuedG : List (List ℤ)
  wasOpened : Bool
deriving DecidableEq

/-- Initial hook state: both axes at their initial values, no socket, no
context, nothing queued or sent. -/
def hookInit : HookState :=
  { connectionStatus := .disconnected
    conversationStatus := .idle
    socketExists := false
    readyState := .connecting
    sent := []
    queue := []
    isPlaying := false
    ctxOpen := false
    recordingActive := false
    started := []
    finishedCount := 0
    enqueuedG := []
    wasOpened := false }

/-- `processAudioQueue`: if a render is active or nothing is pending,
return; otherwise set `isPlaying`, report `speaking`, shift the head
chunk, and (when the playback context is live) begin rendering it; if the
context is gone the shifted chunk is dropped, `isPlaying` is reset and the
status falls back to `idle` when nothing else is pending. -/
def processAudioQueue (s : HookState) : HookState :=
  match s.queue with
  | [] => s
  | c :: rest =>
      if s.isPlaying = true then s
      else
        let s1 : HookState :=
          { s with isPlaying := true, conversationStatus := .speaking, queue := rest }
        if s1.ctxOpen = true then
          { s1 with started := s1.started ++ [c] }
        else
          { s1 with isPlaying := false
                    conversationStatus := if rest = [] then .idle else s1.conversationStatus }

/-- `startRecording`, with the microphone-permission outcome supplied as
`micGranted`: a no-op when a worklet node already exists; on grant the
stream, context and worklet node are created and the status becomes
`recording`; on denial only an error is reported and nothing changes. -/
def startRecording (s : HookState) (micGranted : Bool) : HookState :=
  if s.recordingActive = true then s
  else if micGranted = true then
    { s with recordingActive := true, conversationStatus := .recording }
  else s

/-- `stopRecording`: stop the tracks, close the worklet port and the
recording context, and set the status to `processing` — unconditionally. -/
def stopRecording (s : HookState) : HookState :=
  { s with recordingActive := false, conversationStatus := .processing }

/-- The events that can reach one hook instance: its public operations
(`connect`, `toggleRecording`, `disconnect`), the socket callbacks
(`onopen`, `onmessage`, `onerror`, `onclose`), one captured frame arriving
on the worklet port, and the completion or failure of the current render
(`source.onended`, or the `catch` around decode/start). -/
inductive HookEvent where
  | connectCall
  | sockOpen
  | sockMessage (m : InMsg)
  | sockError
  | sockClose
  | toggleCall (micGranted : Bool)
  | workletFrame (payload : List ℤ)
  | renderEnded
  | renderFailed
  | disconnectCall
deriving DecidableEq

/-- One event step of the hook with configuration `(isRag, sid)`.

* `connectCall`: `connect` returns early when `socketRef.current` is set
  or the status is `connecting`; otherwise it creates the socket.
* `sockOpen`: `ws.onopen` sends the one configuration message, reports
  `connected`, resets the conversation axis to `idle` and creates the
  playback context.  (`readyState` becomes `open` in the same task, before
  the handler body runs.)
* `sockMessage`: `ws.onmessage` parses the data; a message with an
  `audio_chunk` field is decoded, pushed, and `processAudioQueue` runs;
  any other shape changes nothing (for malformed text, `JSON.parse` throws
  before any mutation, and an exception in a message handler does not
  close a WebSocket).
* `sockError` / `sockClose`: `ws.onerror` sets `error`; `ws.onclose` sets
  `disconnected` unconditionally.
* `toggleCall`: `toggleRecording` starts capture in `idle`, stops it in
  `recording`, and does nothing otherwise.
* `workletFrame`: the worklet-port handler sends the frame as an audio
  message iff the socket is open (the handler only exists while the
  worklet node is live).
* `renderEnded` / `renderFailed`: `source.onended` re-arms the queue or
  reports `idle`; the decode/start `catch` resets `isPlaying` and reports
  `idle` without re-arming.  Both require an in-flight render on a live
  context.
* `disconnectCall`: `disconnect` runs `stopRecording`, closes the socket
  (if it exists and is not already closing or closed) and closes the
  playback context.  The pending queue and `isPlaying` are not touched. -/
def hookStep (isRag : Bool) (sid : String) (s : HookState) : HookEvent → HookState
  | .connectCall =>
      if s.socketExists = true ∨ s.connectionStatus = .connecting then s
      else { s with connectionStatus := .connecting, socketExists := true,
                    readyState := .connecting }
  | .sockOpen =>
      if s.socketExists = true ∧ s.readyState = .connecting then
        { s with sent := s.sent ++ [WireMsg.config isRag none sid]
                 connectionStatus := .connected
                 conversationStatus := .idle
                 readyState := .open
                 ctxOpen := true
                 wasOpened := true }
      else s
  | .sockMessage m =>
      if s.socketExists = true ∧ s.readyState = .open then
        match m with
        | .audioChunk b =>
            processAudioQueue
              { s with queue := s.queue ++ [b], enqueuedG := s.enqueuedG ++ [b] }
        | .noAudioField => s
        | .malformed => s
      else s
  | .sockError =>
      if s.socketExists = true ∧ ¬ s.readyState = .closed then
        { s with connectionStatus := .error }
      else s
  | .sockClose =>
      if s.socketExists = true ∧ ¬ s.readyState = .closed then
        { s with readyState := .closed, connectionStatus := .disconnected }
      else s
  | .toggleCall micGranted =>
      if s.conversationStatus = .idle then startRecording s micGranted
      else if s.conversationStatus = .recording then stopRecording s
      else s
  | .workletFrame payload =>
      if s.recordingActive = true ∧ s.socketExists = true ∧ s.readyState = .open then
        { s with sent := s.sent ++ [WireMsg.audioChunk payload] }
      else s
  | .renderEnded =>
      if s.isPlaying = true ∧ s.ctxOpen = true then
        let s1 : HookState := { s with isPlaying := false, finishedCount := s.finishedCount + 1 }
        if s1.queue = [] then { s1 with conversationStatus := .idle }
        else processAudioQueue s1
      else s
  | .renderFailed =>
      if s.isPlaying = true ∧ s.ctxOpen = true then
        { s with isPlaying := false, conversationStatus := .idle,
                 finishedCount := s.finishedCount + 1 }
      else s
  | .disconnectCall =>
      let s1 := stopRecording s
      let s2 : HookState :=
        if s1.socketExists = true ∧ (s1.readyState = .connecting ∨ s1.readyState = .open) then
          { s1 with readyState := .closing }
        else s1
      { s2 with ctxOpen := false }

/-- Run the hook from its initial state through a list of events. -/
def hookRun (isRag : Bool) (sid : String) (es : List HookEvent) : HookState :=
  es.foldl (hookStep isRag sid) hookInit

/-! ## Lemmas about the Capture & Encoder -/

/-- The source clamps with `Math.max(-1, Math.min(1, x))`, the spec text
clamps "to [-1, 1]"; the two orders agree. -/
lemma clamp_comm (x : ℚ) : max (-1) (min 1 x) = min 1 (max (-1) x) := by
  rw [max_min_distrib_left]
  norm_num

lemma jsTrunc_bound {q : ℚ} (h1 : -32768 ≤ q) (h2 : q ≤ 32767) :
    -32768 ≤ jsTrunc q ∧ jsTrunc q ≤ 32767 := by
  unfold jsTrunc
  split
  · refine ⟨?_, Int.ceil_le.mpr (by exact_mod_cast h2)⟩
    have h3 := Int.le_ceil q
    exact_mod_cast le_trans h1 h3
  · refine ⟨Int.le_floor.mpr (by exact_mod_cast h1), ?_⟩
    have h3 := Int.floor_le q
    exact_mod_cast le_trans h3 h2

lemma toInt16_eq_jsTrunc {q : ℚ} (h1 : -32768 ≤ q) (h2 : q ≤ 32767) :
    toInt16 q = jsTrunc q := by
  obtain ⟨a, b⟩ := jsTrunc_bound h1 h2
  unfold toInt16
  omega

lemma scaled_bound {c : ℚ} (h1 : -1 ≤ c) (h2 : c ≤ 1) :
    -32768 ≤ (if c < 0 then c * 32768 else c * 32767) ∧
      (if c < 0 then c * 32768 else c * 32767) ≤ 32767 := by
  split <;> constructor <;> nlinarith

lemma encodeSample_eq_jsTrunc_scaled (x : ℚ) :
    encodeSample x = jsTrunc (specScaledSample x) := by
  simp only [encodeSample, specScaledSample]
  rw [clamp_comm]
  have h1 : -1 ≤ min 1 (max (-1) x) :=
    le_min (by norm_num) (le_max_left _ _)
  have h2 : min 1 (max (-1) x) ≤ 1 := min_le_left _ _
  obtain ⟨b1, b2⟩ := scaled_bound h1 h2
  exact toInt16_eq_jsTrunc b1 b2

lemma encode_one : encodeSample 1 = 32767 := by
  have h : specScaledSample 1 = 32767 := by
    have : min 1 (max (-1) (1 : ℚ)) = 1 := by norm_num
    simp only [specScaledSample, this]
    norm_num
  rw [encodeSample_eq_jsTrunc_scaled, h]
  norm_num [jsTrunc]

lemma encode_neg_one : encodeSample (-1) = -32768 := by
  have h : specScaledSample (-1) = -32768 := by
    have : min 1 (max (-1) (-1 : ℚ)) = -1 := by norm_num
    simp only [specScaledSample, this]
    norm_num
  rw [encodeSample_eq_jsTrunc_scaled, h]
  have : ((-32768 : ℚ)) < 0 := by norm_num
  rw [jsTrunc, if_pos this,
    show (-32768 : ℚ) = ((-32768 : ℤ) : ℚ) by norm_num, Int.ceil_intCast]

lemma process_append (st : ProcState) (a b : List ℚ) :
    process st (a ++ b) = process (process st a) b :=
  List.foldl_append _ _ _ _

lemma process_nil (st : ProcState) : process st [] = st := rfl

lemma process_cons (st : ProcState) (x : ℚ) (xs : List ℚ) :
    process st (x :: xs) = process (processSample st x) xs := rfl

lemma processSample_emit (st : ProcState) (x : ℚ) (h : st.bufferSize ≤ st.bufferIndex + 1) :
    processSample st x =
      { st with buffer := st.buffer.set st.bufferIndex (encodeSample x),
                bufferIndex := 0,
                emitted := st.emitted ++ [st.buffer.set st.bufferIndex (encodeSample x)] } := by
  simp only [processSample]
  rw [if_pos h]

lemma processSample_no_emit (st : ProcState) (x : ℚ)
    (h : ¬ st.bufferSize ≤ st.bufferIndex + 1) :
    processSample st x =
      { st with buffer := st.buffer.set st.bufferIndex (encodeSample x),
                bufferIndex := st.bufferIndex + 1 } := by
  simp only [processSample]
  rw [if_neg h]

/-- Counting lemma: starting from a cursor strictly inside the buffer,
running the sample loop advances the cursor modulo the frame size and
emits one frame per `bufferSize` consumed samples. -/
lemma process_count (input : List ℚ) :
    ∀ st : ProcState, 0 < st.bufferSize → st.bufferIndex < st.bufferSize →
      (process st input).bufferIndex = (st.bufferIndex + input.length) % st.bufferSize ∧
      (process st input).emitted.length
        = st.emitted.length + (st.bufferIndex + input.length) / st.bufferSize ∧
      (process st input).bufferSize = st.bufferSize := by
  induction input with
  | nil =>
      intro st hn hidx
      rw [process_nil]
      refine ⟨?_, ?_, rfl⟩
      · simp [Nat.mod_eq_of_lt hidx]
      · simp [Nat.div_eq_of_lt hidx]
  | cons x xs ih =>
      intro st hn hidx
      rw [process_cons]
      by_cases hfull : st.bufferSize ≤ st.bufferIndex + 1
      · rw [processSample_emit st x hfull]
        obtain ⟨h1, h2, h3⟩ := ih
          { st with buffer := st.buffer.set st.bufferIndex (encodeSample x),
                    bufferIndex := 0,
                    emitted := st.emitted ++ [st.buffer.set st.bufferIndex (encodeSample x)] }
          hn hn
        dsimp only at h1 h2 h3
        refine ⟨?_, ?_, h3⟩
        · rw [h1]
          simp only [List.length_cons]
          have he : st.bufferIndex + (xs.length + 1) = st.bufferSize + xs.length := by omega
          rw [he, Nat.add_mod_left]
          simp
        · rw [h2]
          simp only [List.length_cons, List.length_append, List.length_nil,
            Nat.zero_add]
          have he : st.bufferIndex + (xs.length + 1) = xs.length + st.bufferSize := by omega
          rw [he, Nat.add_div_right _ hn]
          omega
      · rw [processSample_no_emit st x hfull]
        obtain ⟨h1, h2, h3⟩ := ih
          { st with buffer := st.buffer.set st.bufferIndex (encodeSample x),
                    bufferIndex := st.bufferIndex + 1 }
          hn (show st.bufferIndex + 1 < st.bufferSize by omega)
        dsimp only at h1 h2 h3
        refine ⟨?_, ?_, h3⟩
        · rw [h1]
          simp only [List.length_cons]
          have he : st.bufferIndex + 1 + xs.length = st.bufferIndex + (xs.length + 1) := by
            omega
          rw [he]
        · rw [h2]
          simp only [List.length_cons]
          have he : st.bufferIndex + 1 + xs.length = st.bufferIndex + (xs.length + 1) := by
            omega
          rw [he]

/-- Filling lemma: from a cursor `j` slots short of capacity, feeding `j`
samples of value `1.0` completes exactly one frame, whose tail is `32767`
repeated, posts an independent copy of it, and resets the cursor. -/
lemma fill_ones :
    ∀ (j : ℕ) (st : ProcState), st.buffer.length = st.bufferSize →
      st.bufferIndex + j = st.bufferSize → 0 < j →
      process st (List.replicate j 1) =
        ⟨st.bufferSize, st.buffer.take st.bufferIndex ++ List.replicate j 32767, 0,
          st.emitted ++ [st.buffer.take st.bufferIndex ++ List.replicate j 32767]⟩ := by
  intro j
  induction j with
  | zero => omega
  | succ j ih =>
      intro st hlen hcap _
      have hidx : st.bufferIndex < st.buffer.length := by omega
      have hset : st.buffer.set st.bufferIndex (encodeSample 1)
          = st.buffer.take st.bufferIndex ++ 32767 :: st.buffer.drop (st.bufferIndex + 1) := by
        rw [encode_one]
        exact List.set_eq_take_cons_drop _ hidx
      rcases Nat.eq_zero_or_pos j with hj | hj
      · subst hj
        have hdrop : st.buffer.drop (st.bufferIndex + 1) = [] :=
          List.drop_eq_nil_of_le (by omega)
        rw [show List.replicate 1 (1 : ℚ) = [1] from rfl, process_cons, process_nil,
          processSample_emit st 1 (by omega), hset, hdrop]
        rfl
      · rw [show List.replicate (j + 1) (1 : ℚ) = 1 :: List.replicate j 1 from rfl,
          process_cons, processSample_no_emit st 1 (by omega)]
        rw [ih { st with buffer := st.buffer.set st.bufferIndex (encodeSample 1),
                         bufferIndex := st.bufferIndex + 1 }
            (by simp [hlen]) (by simp; omega) hj]
        have hlen_take : (st.buffer.take st.bufferIndex).length = st.bufferIndex := by
          rw [List.length_take]
          omega
        have htake : (st.buffer.set st.bufferIndex (encodeSample 1)).take (st.bufferIndex + 1)
            = st.buffer.take st.bufferIndex ++ [(32767 : ℤ)] := by
          rw [hset, List.take_append_eq_append_take,
            List.take_of_length_le (by rw [hlen_take]; omega), hlen_take]
          have h1 : st.bufferIndex + 1 - st.bufferIndex = 1 := by omega
          rw [h1]
          simp
        simp only [htake]
        have hjoin : st.buffer.take st.bufferIndex ++ [(32767 : ℤ)] ++ List.replicate j 32767
            = st.buffer.take st.bufferIndex ++ List.replicate (j + 1) 32767 := by
          rw [List.append_assoc]
          rfl
        rw [hjoin]

/-! ## Lemmas about the `useLiveVoiceChat` hook -/

/-- The inductive invariant of the hook's event system.

* while the socket is open the playback context is live and the socket
  reference is set;
* the chunks whose render began, followed by the pending chunks, are
  exactly the chunks ever enqueued, in order (FIFO, no reordering);
* the number of begun renders exceeds the number of terminated render
  attempts exactly when a render is in flight — never by more than one;
* nothing is sent before the `open` event; once it has fired, the very
  first sent message is the one configuration handshake, and no second
  configuration message is ever sent;
* `connected` is reported only after the `open` handler ran, which can
  happen only once per hook instance (the socket reference is permanent). -/
def HookInv (isRag : Bool) (sid : String) (s : HookState) : Prop :=
  (s.readyState = .open → s.ctxOpen = true) ∧
  (s.readyState = .open → s.socketExists = true) ∧
  (s.started ++ s.queue = s.enqueuedG) ∧
  (s.started.length = s.finishedCount + (if s.isPlaying = true then 1 else 0)) ∧
  (s.wasOpened = false → s.sent = []) ∧
  (s.wasOpened = true →
    s.sent.head? = some (WireMsg.config isRag none sid) ∧
    List.countP isConfigMsg s.sent = 1) ∧
  (s.connectionStatus = .connected → s.wasOpened = true) ∧
  (s.readyState = .open → s.wasOpened = true) ∧
  (s.wasOpened = true → s.socketExists = true) ∧
  (s.wasOpened = true → ¬ s.readyState = .connecting)

lemma hookInv_init (isRag : Bool) (sid : String) : HookInv isRag sid hookInit := by
  refine ⟨?_, ?_, rfl, rfl, fun _ => rfl, ?_, ?_, ?_, ?_, ?_⟩ <;> intro h <;> simp_all [hookInit]

lemma paq_empty (s : HookState) (hq : s.queue = []) : processAudioQueue s = s := by
  unfold processAudioQueue
  rw [hq]

lemma paq_playing (s : HookState) (hp : s.isPlaying = true) : processAudioQueue s = s := by
  cases hq : s.queue with
  | nil => exact paq_empty s hq
  | cons c rest => simp [processAudioQueue, hq, hp]

lemma paq_start (s : HookState) (c : List ℤ) (rest : List (List ℤ))
    (hq : s.queue = c :: rest) (hp : s.isPlaying = false) (hctx : s.ctxOpen = true) :
    processAudioQueue s =
      { s with isPlaying := true, conversationStatus := .speaking, queue := rest,
               started := s.started ++ [c] } := by
  simp [processAudioQueue, hq, hp, hctx]

lemma head_append_left {α : Type} (l l2 : List α) (a : α) (h : l.head? = some a) :
    (l ++ l2).head? = some a := by
  cases l with
  | nil => simp at h
  | cons x xs => simpa using h

lemma processAudioQueue_inv (isRag : Bool) (sid : String) (s : HookState)
    (hctx : s.ctxOpen = true) (h : HookInv isRag sid s) :
    HookInv isRag sid (processAudioQueue s) := by
  obtain ⟨h1, h2, h3, h4, h5, h6, h7, h8, h9, h10⟩ := h
  cases hq : s.queue with
  | nil => rw [paq_empty s hq]; exact ⟨h1, h2, h3, h4, h5, h6, h7, h8, h9, h10⟩
  | cons c rest =>
      by_cases hp : s.isPlaying = true
      · rw [paq_playing s hp]
        exact ⟨h1, h2, h3, h4, h5, h6, h7, h8, h9, h10⟩
      · have hp2 : s.isPlaying = false := by
          cases hb : s.isPlaying
          · rfl
          · exact absurd hb hp
        rw [paq_start s c rest hq hp2 hctx]
        refine ⟨fun _ => hctx, h2, ?_, ?_, h5, h6, h7, h8, h9, h10⟩
        · show (s.started ++ [c]) ++ rest = s.enqueuedG
          rw [List.append_assoc]
          rw [hq] at h3
          simpa using h3
        · show (s.started ++ [c]).length = s.finishedCount + if true = true then 1 else 0
          rw [hp2] at h4
          simp at h4 ⊢
          omega

/-- Every event of the hook preserves the invariant. -/
lemma hookStep_inv (isRag : Bool) (sid : String) (s : HookState) (e : HookEvent)
    (h : HookInv isRag sid s) : HookInv isRag sid (hookStep isRag sid s e) := by
  obtain ⟨h1, h2, h3, h4, h5, h6, h7, h8, h9, h10⟩ := h
  cases e with
  | connectCall =>
      simp only [hookStep]
      by_cases hg : s.socketExists = true ∨ s.connectionStatus = .connecting
      · rw [if_pos hg]
        exact ⟨h1, h2, h3, h4, h5, h6, h7, h8, h9, h10⟩
      · rw [if_neg hg]
        push_neg at hg
        obtain ⟨hsock, _⟩ := hg
        refine ⟨?_, ?_, h3, h4, h5, h6, ?_, ?_, fun _ => rfl, ?_⟩
        · intro hx; simp at hx
        · intro hx; simp at hx
        · intro hx; simp at hx
        · intro hx; simp at hx
        · intro hw
          exact absurd (h9 hw) hsock
  | sockOpen =>
      simp only [hookStep]
      by_cases hg : s.socketExists = true ∧ s.readyState = .connecting
      · rw [if_pos hg]
        have hwo : s.wasOpened = false := by
          cases hb : s.wasOpened
          · rfl
          · exact absurd hg.2 (h10 hb)
        have hsent : s.sent = [] := h5 hwo
        refine ⟨fun _ => rfl, fun _ => hg.1, h3, h4, ?_, ?_, fun _ => rfl,
          fun _ => rfl, fun _ => hg.1, ?_⟩
        · intro hx; simp at hx
        · intro _
          constructor
          · show (s.sent ++ [WireMsg.config isRag none sid]).head? = _
            rw [hsent]
            rfl
          · show List.countP isConfigMsg (s.sent ++ [WireMsg.config isRag none sid]) = 1
            rw [hsent]
            simp [isConfigMsg]
        · intro _
          simp
      · rw [if_neg hg]
        exact ⟨h1, h2, h3, h4, h5, h6, h7, h8, h9, h10⟩
  | sockMessage m =>
      simp only [hookStep]
      by_cases hg : s.socketExists = true ∧ s.readyState = .open
      · rw [if_pos hg]
        cases m with
        | audioChunk b =>
            show HookInv isRag sid (processAudioQueue
              { s with queue := s.queue ++ [b], enqueuedG := s.enqueuedG ++ [b] })
            apply processAudioQueue_inv
            · exact h1 hg.2
            · refine ⟨h1, h2, ?_, h4, h5, h6, h7, h8, h9, h10⟩
              show s.started ++ (s.queue ++ [b]) = s.enqueuedG ++ [b]
              rw [← List.append_assoc, h3]
        | noAudioField => exact ⟨h1, h2, h3, h4, h5, h6, h7, h8, h9, h10⟩
        | malformed => exact ⟨h1, h2, h3, h4, h5, h6, h7, h8, h9, h10⟩
      · rw [if_neg hg]
        exact ⟨h1, h2, h3, h4, h5, h6, h7, h8, h9, h10⟩
  | sockError =>
      simp only [hookStep]
      by_cases hg : s.socketExists = true ∧ ¬ s.readyState = .closed
      · rw [if_pos hg]
        refine ⟨h1, h2, h3, h4, h5, h6, ?_, h8, h9, h10⟩
        intro hx; simp at hx
      · rw [if_neg hg]
        exact ⟨h1, h2, h3, h4, h5, h6, h7, h8, h9, h10⟩
  | sockClose =>
      simp only [hookStep]
      by_cases hg : s.socketExists = true ∧ ¬ s.readyState = .closed
      · rw [if_pos hg]
        refine ⟨?_, ?_, h3, h4, h5, h6, ?_, ?_, h9, ?_⟩
        · intro hx; simp at hx
        · intro hx; simp at hx
        · intro hx; simp at hx
        · intro hx; simp at hx
        · intro _; simp
      · rw [if_neg hg]
        exact ⟨h1, h2, h3, h4, h5, h6, h7, h8, h9, h10⟩
  | toggleCall micGranted =>
      simp only [hookStep, startRecording, stopRecording]
      split_ifs <;> exact ⟨h1, h2, h3, h4, h5, h6, h7, h8, h9, h10⟩
  | workletFrame payload =>
      simp only [hookStep]
      by_cases hg : s.recordingActive = true ∧ s.socketExists = true ∧ s.readyState = .open
      · rw [if_pos hg]
        have hwo : s.wasOpened = true := h8 hg.2.2
        obtain ⟨hhead, hcount⟩ := h6 hwo
        refine ⟨h1, h2, h3, h4, ?_, ?_, h7, h8, h9, h10⟩
        · intro hx
          rw [hwo] at hx
          simp at hx
        · intro _
          refine ⟨head_append_left _ _ _ hhead, ?_⟩
          show List.countP isConfigMsg (s.sent ++ [WireMsg.audioChunk payload]) = 1
          rw [List.countP_append, hcount]
          simp [isConfigMsg]
      · rw [if_neg hg]
        exact ⟨h1, h2, h3, h4, h5, h6, h7, h8, h9, h10⟩
  | renderEnded =>
      simp only [hookStep]
      by_cases hg : s.isPlaying = true ∧ s.ctxOpen = true
      · rw [if_pos hg]
        have hinv1 : HookInv isRag sid
            { s with isPlaying := false, finishedCount := s.finishedCount + 1 } := by
          refine ⟨h1, h2, h3, ?_, h5, h6, h7, h8, h9, h10⟩
          show s.started.length = s.finishedCount + 1 + (if false = true then 1 else 0)
          rw [hg.1] at h4
          simp at h4 ⊢
          omega
        obtain ⟨g1, g2, g3, g4, g5, g6, g7, g8, g9, g10⟩ := hinv1
        by_cases hq : s.queue = []
        · rw [if_pos hq]
          exact ⟨g1, g2, g3, g4, g5, g6, g7, g8, g9, g10⟩
        · rw [if_neg hq]
          exact processAudioQueue_inv isRag sid _ hg.2
            ⟨g1, g2, g3, g4, g5, g6, g7, g8, g9, g10⟩
      · rw [if_neg hg]
        exact ⟨h1, h2, h3, h4, h5, h6, h7, h8, h9, h10⟩
  | renderFailed =>
      simp only [hookStep]
      by_cases hg : s.isPlaying = true ∧ s.ctxOpen = true
      · rw [if_pos hg]
        refine ⟨h1, h2, h3, ?_, h5, h6, h7, h8, h9, h10⟩
        show s.started.length = s.finishedCount + 1 + (if false = true then 1 else 0)
        rw [hg.1] at h4
        simp at h4 ⊢
        omega
      · rw [if_neg hg]
        exact ⟨h1, h2, h3, h4, h5, h6, h7, h8, h9, h10⟩
  | disconnectCall =>
      simp only [hookStep, stopRecording]
      by_cases hg : s.socketExists = true ∧ (s.readyState = .connecting ∨ s.readyState = .open)
      · rw [if_pos hg]
        refine ⟨?_, ?_, h3, h4, h5, h6, h7, ?_, h9, ?_⟩
        · intro hx; simp at hx
        · intro hx; simp at hx
        · intro hx; simp at hx
        · intro _; simp
      · rw [if_neg hg]
        refine ⟨?_, h2, h3, h4, h5, h6, h7, h8, h9, h10⟩
        intro hopen
        exact absurd ⟨h2 hopen, Or.inr hopen⟩ hg

/-- The invariant holds in every reachable state of the hook. -/
lemma hookRun_inv (isRag : Bool) (sid : String) (es : List HookEvent) :
    HookInv isRag sid (hookRun isRag sid es) := by
  suffices h : ∀ s : HookState, HookInv isRag sid s →
      HookInv isRag sid (es.foldl (hookStep isRag sid) s) from
    h hookInit (hookInv_init isRag sid)
  induction es with
  | nil => intro s hs; exact hs
  | cons e es ih =>
      intro s hs
      exact ih _ (hookStep_inv isRag sid s e hs)

/-- Closed form of the `disconnect` step. -/
lemma disconnect_eq (isRag : Bool) (sid : String) (s : HookState) :
    hookStep isRag sid s .disconnectCall =
      if s.socketExists = true ∧ (s.readyState = .connecting ∨ s.readyState = .open) then
        { s with recordingActive := false, conversationStatus := .processing,
                 readyState := .closing, ctxOpen := false }
      else
        { s with recordingActive := false, conversationStatus := .processing,
                 ctxOpen := false } := by
  simp only [hookStep, stopRecording]
  by_cases hg : s.socketExists = true ∧ (s.readyState = .connecting ∨ s.readyState = .open)
  · rw [if_pos hg, if_pos hg]
  · rw [if_neg hg, if_neg hg]

/-! ## Claim theorems -/

/-- C1: for every input sample (modelled as an exact rational), the
encoded 16-bit value is the sample clamped to `[-1, 1]` and then scaled
by `32768` when the clamped value is negative and by `32767` when it is
non-negative, as stored by the `Int16Array` (truncation toward zero); in
particular `1.0` encodes to `32767` and `-1.0` encodes to `-32768`. -/
theorem encoder_piecewise_scaling :
    (∀ x : ℚ, encodeSample x = jsTrunc (specScaledSample x)) ∧
    encodeSample 1 = 32767 ∧ encodeSample (-1) = -32768 :=
  ⟨encodeSample_eq_jsTrunc_scaled, encode_one, encode_neg_one⟩

/-- C2: a frame is emitted exactly when `bufferSize` samples have
accumulated since the previous emission — after any sample sequence the
number of emitted frames is the sample count divided by the frame size
and the write cursor is the count modulo the frame size — and feeding
exactly 8192 samples of `1.0` at frame size 4096 emits exactly two
frames, each entirely filled with `32767`. -/
theorem frame_emission_exact (n : ℕ) (hn : 0 < n) (samples : List ℚ) :
    (process (ProcState.init n) samples).emitted.length = samples.length / n ∧
    (process (ProcState.init n) samples).bufferIndex = samples.length % n ∧
    (process (ProcState.init 4096) (List.replicate 8192 1)).emitted
      = List.replicate 2 (List.replicate 4096 (32767 : ℤ)) := by
  obtain ⟨ha, hb, _⟩ := process_count samples (ProcState.init n) hn hn
  refine ⟨?_, ?_, ?_⟩
  · rw [hb]
    simp [ProcState.init]
  · rw [ha]
    simp [ProcState.init]
  · have hA : process (ProcState.init 4096) (List.replicate 4096 1)
        = ⟨4096, List.replicate 4096 32767, 0, [List.replicate 4096 32767]⟩ := by
      rw [fill_ones 4096 (ProcState.init 4096)
        (show (List.replicate 4096 (0 : ℤ)).length = 4096 by rw [List.length_replicate])
        (show (0 : ℕ) + 4096 = 4096 by norm_num) (by norm_num)]
      rfl
    have hB : process
        (⟨4096, List.replicate 4096 32767, 0, [List.replicate 4096 32767]⟩ : ProcState)
        (List.replicate 4096 1)
        = ⟨4096, List.replicate 4096 32767, 0,
            [List.replicate 4096 32767, List.replicate 4096 32767]⟩ := by
      rw [fill_ones 4096 _
        (show (List.replicate 4096 (32767 : ℤ)).length = 4096 by rw [List.length_replicate])
        (show (0 : ℕ) + 4096 = 4096 by norm_num) (by norm_num)]
      rfl
    have hsplit : List.replicate 8192 (1 : ℚ)
        = List.replicate 4096 1 ++ List.replicate 4096 1 := by
      rw [← List.replicate_add]
    rw [hsplit, process_append, hA, hB]
    rfl

/-- Witness for `frame_emission_exact`, at frame size 2 with three samples. -/
theorem frame_emission_exact_witness :
    (process (ProcState.init 2) [1, 1, 1]).emitted.length = ([1, 1, 1] : List ℚ).length / 2 ∧
    (process (ProcState.init 2) [1, 1, 1]).bufferIndex = ([1, 1, 1] : List ℚ).length % 2 ∧
    (process (ProcState.init 4096) (List.replicate 8192 1)).emitted
      = List.replicate 2 (List.replicate 4096 (32767 : ℤ)) :=
  frame_emission_exact 2 (by decide) [1, 1, 1]

/-- C3: in every reachable state of the hook, the chunks whose render was
begun, followed by the pending chunks, are exactly the enqueued chunks in
enqueue order (FIFO — no reordering, no skipping), and the number of
begun renders exceeds the number of terminated render attempts exactly by
the one in-flight render indicated by `isPlaying` — so at most one chunk
is being rendered at any instant, however enqueues interleave with
render completions. -/
theorem playback_fifo_no_overlap (isRag : Bool) (sid : String) (es : List HookEvent) :
    (hookRun isRag sid es).started ++ (hookRun isRag sid es).queue
        = (hookRun isRag sid es).enqueuedG ∧
    (hookRun isRag sid es).started.length
        = (hookRun isRag sid es).finishedCount
          + (if (hookRun isRag sid es).isPlaying = true then 1 else 0) := by
  obtain ⟨_, _, h3, h4, _⟩ := hookRun_inv isRag sid es
  exact ⟨h3, h4⟩

/-- C4 (code behaviour at the failing input): enqueue three chunks; the
first render completes and the second fails to decode.  The code drops
the failed chunk, goes `idle` with no render in flight, and leaves the
third chunk stranded in the queue: neither `renderEnded` nor
`renderFailed` can fire again, so chunk 3 renders only if a further
enqueue arrives — contradicting the claim that it proceeds to the next
pending chunk without requiring any further enqueue. -/
theorem decode_failure_strands_pending_chunk :
    (hookRun true "sess" [.connectCall, .sockOpen,
        .sockMessage (.audioChunk [1]), .sockMessage (.audioChunk [2]),
        .sockMessage (.audioChunk [3]), .renderEnded, .renderFailed]).started = [[1], [2]] ∧
    (hookRun true "sess" [.connectCall, .sockOpen,
        .sockMessage (.audioChunk [1]), .sockMessage (.audioChunk [2]),
        .sockMessage (.audioChunk [3]), .renderEnded, .renderFailed]).queue = [[3]] ∧
    (hookRun true "sess" [.connectCall, .sockOpen,
        .sockMessage (.audioChunk [1]), .sockMessage (.audioChunk [2]),
        .sockMessage (.audioChunk [3]), .renderEnded, .renderFailed]).isPlaying = false ∧
    (hookRun true "sess" [.connectCall, .sockOpen,
        .sockMessage (.audioChunk [1]), .sockMessage (.audioChunk [2]),
        .sockMessage (.audioChunk [3]), .renderEnded, .renderFailed]).conversationStatus
      = .idle ∧
    hookStep true "sess" (hookRun true "sess" [.connectCall, .sockOpen,
        .sockMessage (.audioChunk [1]), .sockMessage (.audioChunk [2]),
        .sockMessage (.audioChunk [3]), .renderEnded, .renderFailed]) .renderEnded
      = hookRun true "sess" [.connectCall, .sockOpen,
        .sockMessage (.audioChunk [1]), .sockMessage (.audioChunk [2]),
        .sockMessage (.audioChunk [3]), .renderEnded, .renderFailed] ∧
    hookStep true "sess" (hookRun true "sess" [.connectCall, .sockOpen,
        .sockMessage (.audioChunk [1]), .sockMessage (.audioChunk [2]),
        .sockMessage (.audioChunk [3]), .renderEnded, .renderFailed]) .renderFailed
      = hookRun true "sess" [.connectCall, .sockOpen,
        .sockMessage (.audioChunk [1]), .sockMessage (.audioChunk [2]),
        .sockMessage (.audioChunk [3]), .renderEnded, .renderFailed] := by
  decide

/-- C5 counterexample: after a successful connect the one message sent is
the configuration message, and it carries no web-search feature flag —
so the handshake does not carry both feature flags as claimed. -/
theorem handshake_lacks_websearch_flag :
    (hookRun true "sess5" [.connectCall, .sockOpen]).connectionStatus = .connected ∧
    (hookRun true "sess5" [.connectCall, .sockOpen]).sent
      = [WireMsg.config true none "sess5"] ∧
    hasWebSearchFlag (WireMsg.config true none "sess5") = false := by
  decide

/-- C5 (amended): after a successful connect the first message sent is
exactly one configuration message carrying the session identifier and the
RAG feature flag (no web-search flag is included), it precedes every
other outbound message — audio messages included — in send order, and
`connected` is reported only after this handshake message is sent. -/
theorem handshake_precedes_audio (isRag : Bool) (sid : String) (es : List HookEvent) :
    ((hookRun isRag sid es).connectionStatus = .connected →
      (hookRun isRag sid es).sent.head? = some (WireMsg.config isRag none sid) ∧
      List.countP isConfigMsg (hookRun isRag sid es).sent = 1) ∧
    (∀ m ∈ (hookRun isRag sid es).sent,
      (hookRun isRag sid es).sent.head? = some (WireMsg.config isRag none sid)) := by
  obtain ⟨_, _, _, _, h5, h6, h7, _, _, _⟩ := hookRun_inv isRag sid es
  constructor
  · intro hc
    exact h6 (h7 hc)
  · intro m hm
    cases hb : (hookRun isRag sid es).wasOpened
    · rw [h5 hb] at hm
      simp at hm
    · exact (h6 hb).1

/-- Witness for `handshake_precedes_audio`: after `connect` and the open
event, the head of the send log is the configuration message. -/
theorem handshake_precedes_audio_witness :
    (hookRun true "w5" [.connectCall, .sockOpen]).sent.head?
      = some (WireMsg.config true none "w5") :=
  ((handshake_precedes_audio true "w5" [.connectCall, .sockOpen]).1 (by decide)).1

/-- C6 counterexample: connect, open, `disconnect`, then the socket close
event.  The connection axis does reach `disconnected`, but the
conversation axis is left at `processing` — not reset to `idle` as
claimed. -/
theorem disconnect_leaves_processing_status :
    (hookRun true "sess6" [.connectCall, .sockOpen, .disconnectCall,
        .sockClose]).connectionStatus = .disconnected ∧
    (hookRun true "sess6" [.connectCall, .sockOpen, .disconnectCall,
        .sockClose]).conversationStatus = .processing ∧
    ¬ (hookRun true "sess6" [.connectCall, .sockOpen, .disconnectCall,
        .sockClose]).conversationStatus = .idle := by
  decide

/-- C6 (amended): `disconnect` from any state stops capture, closes the
playback output device and requests socket close, and the connection axis
reads `disconnected` once the socket's close event fires; but the
conversation axis is set to `processing` (by the unconditional
`stopRecording` call inside `disconnect`), not reset to `idle`. -/
theorem disconnect_effects (isRag : Bool) (sid : String) (s : HookState)
    (h1 : s.socketExists = true) (h2 : ¬ s.readyState = .closed) :
    (hookStep isRag sid s .disconnectCall).recordingActive = false ∧
    (hookStep isRag sid s .disconnectCall).ctxOpen = false ∧
    (hookStep isRag sid s .disconnectCall).conversationStatus = .processing ∧
    (hookStep isRag sid (hookStep isRag sid s .disconnectCall) .sockClose).connectionStatus
        = .disconnected ∧
    (hookStep isRag sid (hookStep isRag sid s .disconnectCall) .sockClose).conversationStatus
        = .processing := by
  rw [disconnect_eq]
  by_cases hg : s.socketExists = true ∧ (s.readyState = .connecting ∨ s.readyState = .open)
  · rw [if_pos hg]
    refine ⟨rfl, rfl, rfl, ?_, ?_⟩
    · simp only [hookStep]
      rw [if_pos ⟨h1, by simp⟩]
    · simp only [hookStep]
      rw [if_pos ⟨h1, by simp⟩]
  · rw [if_neg hg]
    refine ⟨rfl, rfl, rfl, ?_, ?_⟩
    · simp only [hookStep]
      rw [if_pos ⟨h1, h2⟩]
    · simp only [hookStep]
      rw [if_pos ⟨h1, h2⟩]

/-- Witness for `disconnect_effects`, at the state reached by a connect
and a successful open. -/
theorem disconnect_effects_witness :
    (hookStep true "w6" (hookRun true "w6" [.connectCall, .sockOpen])
        .disconnectCall).recordingActive = false ∧
    (hookStep true "w6" (hookRun true "w6" [.connectCall, .sockOpen])
        .disconnectCall).ctxOpen = false ∧
    (hookStep true "w6" (hookRun true "w6" [.connectCall, .sockOpen])
        .disconnectCall).conversationStatus = .processing ∧
    (hookStep true "w6" (hookStep true "w6" (hookRun true "w6" [.connectCall, .sockOpen])
        .disconnectCall) .sockClose).connectionStatus = .disconnected ∧
    (hookStep true "w6" (hookStep true "w6" (hookRun true "w6" [.connectCall, .sockOpen])
        .disconnectCall) .sockClose).conversationStatus = .processing :=
  disconnect_effects true "w6" (hookRun true "w6" [.connectCall, .sockOpen])
    (by decide) (by decide)

/-- C7 counterexample: with one chunk rendering and one pending (status
`speaking`), `disconnect` leaves the pending chunk list non-empty — the
queue is not cleared. -/
theorem disconnect_keeps_pending_queue :
    (hookRun true "sess7" [.connectCall, .sockOpen, .sockMessage (.audioChunk [71]),
        .sockMessage (.audioChunk [72])]).conversationStatus = .speaking ∧
    ¬ (hookRun true "sess7" [.connectCall, .sockOpen, .sockMessage (.audioChunk [71]),
        .sockMessage (.audioChunk [72]), .disconnectCall]).queue = [] := by
  decide

/-- C7 (amended): disconnecting while `speaking` closes the playback
output device — which is what halts audio output — but leaves the pending
chunk list and the playing flag untouched rather than clearing them. -/
theorem disconnect_releases_output_not_queue (isRag : Bool) (sid : String) (s : HookState)
    (_hs : s.conversationStatus = .speaking) :
    (hookStep isRag sid s .disconnectCall).ctxOpen = false ∧
    (hookStep isRag sid s .disconnectCall).queue = s.queue ∧
    (hookStep isRag sid s .disconnectCall).isPlaying = s.isPlaying := by
  rw [disconnect_eq]
  split <;> exact ⟨rfl, rfl, rfl⟩

/-- Witness for `disconnect_releases_output_not_queue`, at a state that is
`speaking` with a render in flight. -/
theorem disconnect_releases_output_not_queue_witness :
    (hookStep true "w7" (hookRun true "w7" [.connectCall, .sockOpen,
        .sockMessage (.audioChunk [9])]) .disconnectCall).ctxOpen = false ∧
    (hookStep true "w7" (hookRun true "w7" [.connectCall, .sockOpen,
        .sockMessage (.audioChunk [9])]) .disconnectCall).queue
      = (hookRun true "w7" [.connectCall, .sockOpen, .sockMessage (.audioChunk [9])]).queue ∧
    (hookStep true "w7" (hookRun true "w7" [.connectCall, .sockOpen,
        .sockMessage (.audioChunk [9])]) .disconnectCall).isPlaying
      = (hookRun true "w7" [.connectCall, .sockOpen, .sockMessage (.audioChunk [9])]).isPlaying :=
  disconnect_releases_output_not_queue true "w7"
    (hookRun true "w7" [.connectCall, .sockOpen, .sockMessage (.audioChunk [9])]) (by decide)

/-- C8: calling `toggleRecording` while the conversation status is
`processing` or `speaking` is a no-op — the entire observable state, both
status axes, the queue and the session included, is unchanged. -/
theorem toggle_rejected_while_busy (isRag : Bool) (sid : String) (s : HookState)
    (micGranted : Bool)
    (h : s.conversationStatus = .processing ∨ s.conversationStatus = .speaking) :
    hookStep isRag sid s (.toggleCall micGranted) = s := by
  rcases h with h | h <;> simp [hookStep, h]

/-- Witness for `toggle_rejected_while_busy`, at the `processing` state
reached by starting and then stopping recording. -/
theorem toggle_rejected_while_busy_witness :
    hookStep true "w8" (hookRun true "w8" [.connectCall, .sockOpen, .toggleCall true,
        .toggleCall true]) (.toggleCall true)
      = hookRun true "w8" [.connectCall, .sockOpen, .toggleCall true, .toggleCall true] :=
  toggle_rejected_while_busy true "w8"
    (hookRun true "w8" [.connectCall, .sockOpen, .toggleCall true, .toggleCall true]) true
    (Or.inl (by decide))

/-- C9 counterexample: after `connect`, a socket error and the ensuing
close event, the status is `disconnected` (the `error` status was
overwritten by the close handler), and a further `connect` call is a
strict no-op — the whole state is unchanged and the status does not
restart at `connecting`, because the socket reference is never cleared. -/
theorem reconnect_noop_after_close :
    (hookRun true "sess9" [.connectCall, .sockError]).connectionStatus = .error ∧
    (hookRun true "sess9" [.connectCall, .sockError, .sockClose]).connectionStatus
      = .disconnected ∧
    hookRun true "sess9" [.connectCall, .sockError, .sockClose, .connectCall]
      = hookRun true "sess9" [.connectCall, .sockError, .sockClose] ∧
    ¬ (hookRun true "sess9" [.connectCall, .sockError, .sockClose,
        .connectCall]).connectionStatus = .connecting := by
  decide

/-- C9 (amended): `connect` is a no-op whenever the socket reference is
set — and it is never cleared, so after a session has errored or closed a
further `connect` cannot restart the connection — or while the status is
`connecting`; only with no socket reference and a status other than
`connecting` does `connect` start an attempt at `connecting`.  Moreover
`error` is not sticky: the socket's close event overwrites it with
`disconnected`. -/
theorem connect_noop_conditions (isRag : Bool) (sid : String) (s : HookState) :
    (s.socketExists = true ∨ s.connectionStatus = .connecting →
        hookStep isRag sid s .connectCall = s) ∧
    (s.socketExists = false → ¬ s.connectionStatus = .connecting →
        (hookStep isRag sid s .connectCall).connectionStatus = .connecting) ∧
    (s.socketExists = true → ¬ s.readyState = .closed → s.connectionStatus = .error →
        (hookStep isRag sid s .sockClose).connectionStatus = .disconnected) := by
  refine ⟨?_, ?_, ?_⟩
  · intro hg
    simp only [hookStep]
    rw [if_pos hg]
  · intro hs hc
    simp only [hookStep]
    rw [if_neg (by simp [hs, hc])]
  · intro h1 h2 _
    simp only [hookStep]
    rw [if_pos ⟨h1, h2⟩]

/-- Witness for `connect_noop_conditions`: a second `connect` after an
errored-and-closed session changes nothing, while a first `connect` from
the initial state reaches `connecting`. -/
theorem connect_noop_conditions_witness :
    hookStep true "w9" (hookRun true "w9" [.connectCall, .sockError, .sockClose]) .connectCall
      = hookRun true "w9" [.connectCall, .sockError, .sockClose] ∧
    (hookStep true "w9" hookInit .connectCall).connectionStatus = .connecting := by
  constructor
  · exact (connect_noop_conditions true "w9"
      (hookRun true "w9" [.connectCall, .sockError, .sockClose])).1 (Or.inl (by decide))
  · exact (connect_noop_conditions true "w9" hookInit).2.1 (by decide) (by decide)

/-- C10: an inbound message that is not a recognised audio-chunk message
— a JSON object without an `audio_chunk` field, or unparseable text on
which `JSON.parse` throws before any mutation — leaves the entire hook
state, the connection included, unchanged. -/
theorem non_audio_message_ignored (isRag : Bool) (sid : String) (s : HookState) (m : InMsg)
    (h : m = .noAudioField ∨ m = .malformed) :
    hookStep isRag sid s (.sockMessage m) = s := by
  rcases h with h | h <;> subst h <;> simp only [hookStep] <;> split <;> rfl

/-- Witness for `non_audio_message_ignored`: a malformed message arriving
on an open connection changes nothing. -/
theorem non_audio_message_ignored_witness :
    hookStep true "w10" (hookRun true "w10" [.connectCall, .sockOpen]) (.sockMessage .malformed)
      = hookRun true "w10" [.connectCall, .sockOpen] :=
  non_audio_message_ignored true "w10" (hookRun true "w10" [.connectCall, .sockOpen])
    .malformed (Or.inr rfl)

end VoicePipeline
